import Mathlib

/-!
# Verification of the nimbus-api subscription lifecycle handlers

Shallow embedding of the Vercel serverless handlers of the nimbus-api
repository, and proofs about them:

* `cancelHandler` — the cancel-subscription handler (src/unnamed/part_000),
* `processRefundHandler` — the process-refund handler (src/api/send-email.js,
  second handler in the file),
* `verifyLicenseHandler` — the verify-license handler (src/api/verify-license.js,
  first handler in the file),
* `stripeWebhookHandler` — the stripe-webhook handler (src/api/verify-license.js,
  second handler in the file).

The Stripe SDK is modelled by a record of provider operations (`Stripe`); each
operation that the JavaScript can observe failing is `Except String _`.  Every
handler additionally returns the ordered trace of provider calls it made (a
`List Ev`), which lets us state ordering properties (refund before cancel) and
non-interaction properties (nothing inspected after a rejected webhook).

JavaScript `Date` arithmetic is exact integer milliseconds; the fractional
`daysSincePurchase` is embedded in `ℚ`.  HTTP method dispatch, CORS headers and
environment-variable configuration are outside the modelled fragment (every
theorem concerns the POST body path with configuration present, which is where
all the claims live).
-/

deriving instance DecidableEq for Except

namespace Nimbus

/-- JavaScript truthiness of an optional string field of `req.body`:
`undefined`/`null` and the empty string are falsy. -/
def jsTruthy : Option String → Bool
  | none => false
  | some s => s ≠ ""

/-- A Stripe customer, with the only attributes the handlers read. -/
structure Customer where
  id : String
  email : String
deriving Repr, DecidableEq

/-- A Stripe subscription, with the attributes the handlers read.
`created`, `current_period_end` and `trial_end` are epoch seconds, as in the
Stripe API. -/
structure Subscription where
  id : String
  status : String
  created : Int
  current_period_end : Int
  cancel_at_period_end : Bool
  customer : String
  trial_end : Option Int
deriving Repr, DecidableEq

/-- A Stripe invoice; `charge` is the (nullable) charge id. -/
structure Invoice where
  id : String
  charge : Option String
deriving Repr, DecidableEq

/-- A Stripe refund; `amount` is in minor currency units (pence). -/
structure Refund where
  id : String
  amount : Int
  currency : String
deriving Repr, DecidableEq

/-- Provider calls a handler can make, recorded in traces in call order. -/
inductive Ev where
  | listCustomers (email : String)
  | listSubs (customerId : String)
  | retrieveSub (id : String)
  | listPaidInvoices (subId : String)
  | listInvoices (subId : String)
  | refundCreate (charge : String)
  | cancelNow (subId : String)
  | update (subId : String) (cancelAtPeriodEnd : Bool)
  | sendEmail
deriving Repr, DecidableEq

/-- The Stripe SDK as seen by the handlers.  List endpoints return the full
provider-side result list; the caller applies its `limit` by `take`.
`customers`/`subsOf` reads are total (their failures are not needed by any
claim); the operations whose failures the code catches are `Except`. -/
structure Stripe where
  customers : List Customer
  subsOf : String → List Subscription
  retrieve : String → Except String Subscription
  paidInvoicesOf : String → Except String (List Invoice)
  invoicesOf : String → Except String (List Invoice)
  createRefund : String → Except String Refund
  cancelNow : String → Except String Subscription
  update : String → Bool → Except String Subscription

/-- The model of `stripe.customers.list({email, limit})`: exact match on the stored email
against the query string, truncated to `limit`. -/
def listByEmail (st : Stripe) (q : String) (limit : Nat) : List Customer :=
  (st.customers.filter (fun c => c.email == q)).take limit

/-- The quantity `daysSincePurchase = (now - new Date(subscription.created * 1000)) / (1000*60*60*24)`
(src/unnamed/part_000:75-77 and src/api/send-email.js:158-160), with `now` in
epoch milliseconds and `created` in epoch seconds.  Written with `Rat.divInt`
(exact integer division into `ℚ`) so concrete runs evaluate;
`daysSincePurchase_eq_div` below shows it is the source's quotient. -/
def daysSincePurchase (nowMs created : Int) : ℚ :=
  Rat.divInt (nowMs - created * 1000) (1000 * 60 * 60 * 24)

/-- Indeed `daysSincePurchase` is the elapsed milliseconds divided by the
milliseconds per day, in fractional days. -/
theorem daysSincePurchase_eq_div (nowMs created : Int) :
    daysSincePurchase nowMs created
      = ((nowMs - created * 1000 : Int) : ℚ) / (1000 * 60 * 60 * 24) := by
  rw [daysSincePurchase, Rat.divInt_eq_div]
  norm_num

/-- The refund-window test of the cancel-subscription handler
(src/unnamed/part_000:79): `daysSincePurchase <= 7`. -/
def cancelRefundEligible (nowMs created : Int) : Bool :=
  daysSincePurchase nowMs created ≤ 7

/-- The window-expiry test of the process-refund handler
(src/api/send-email.js:162): `daysSincePurchase > 7`. -/
def refundWindowExpired (nowMs created : Int) : Bool :=
  daysSincePurchase nowMs created > 7

/-- Outcome of the shared subscription-lookup code at the top of the
cancel-subscription and process-refund handlers; each handler maps the error
cases to its own 404 message. -/
inductive LocateErr where
  | subNotFound
  | customerNotFound
  | noSubscription
deriving Repr, DecidableEq

/-- The subscription lookup of src/unnamed/part_000:38-65 and
src/api/send-email.js:126-155: direct retrieval when a (truthy) subscription id
is supplied (any retrieval failure is "not found"); otherwise
`customers.list({email, limit: 1})` then `subscriptions.list({customer, limit: 1})`
taking the first customer's first subscription, with no status filter. -/
def locateSub (st : Stripe) (subscriptionId email : Option String) :
    Except LocateErr Subscription × List Ev :=
  if jsTruthy subscriptionId then
    let sid := subscriptionId.getD ""
    match st.retrieve sid with
    | .ok s => (.ok s, [.retrieveSub sid])
    | .error _ => (.error .subNotFound, [.retrieveSub sid])
  else
    let em := email.getD ""
    match listByEmail st em 1 with
    | [] => (.error .customerNotFound, [.listCustomers em])
    | c :: _ =>
      match (st.subsOf c.id).take 1 with
      | [] => (.error .noSubscription, [.listCustomers em, .listSubs c.id])
      | s :: _ => (.ok s, [.listCustomers em, .listSubs c.id])

/-- Request body of the cancel-subscription handler. -/
structure CancelReq where
  subscriptionId : Option String
  email : Option String
  action : Option String
  autoRefund : Bool
  reason : Option String
deriving Repr, DecidableEq

/-- Responses of the cancel-subscription handler (src/unnamed/part_000).
`badRequest` is HTTP 400, `notFound` 404, `refunded` and `completed` 200,
`serverError` 500. -/
inductive CancelResp where
  | badRequest (error : String)
  | notFound (error : String)
  | refunded (refundAmount : ℚ) (message : String) (subscriptionId : String)
  | completed (message : String) (subscriptionId : String)
      (cancelAtPeriodEnd : Bool) (currentPeriodEnd : Int)
  | serverError (details : String)
deriving Repr, DecidableEq

/-- The inner `try` of the auto-refund branch (src/unnamed/part_000:81-133):
list paid invoices (limit 1); if the first has a truthy charge, create a refund
for it and cancel the subscription immediately, returning the refunded
response.  Returns `none` when the block falls through to the standard
cancellation: no paid invoice, no charge, or a caught failure of any of the
three provider calls. -/
def refundAttempt (st : Stripe) (sub : Subscription) :
    Option CancelResp × List Ev :=
  match st.paidInvoicesOf sub.id with
  | .error _ => (none, [.listPaidInvoices sub.id])
  | .ok invs =>
    match (invs.take 1).head? with
    | none => (none, [.listPaidInvoices sub.id])
    | some inv =>
      if jsTruthy inv.charge then
        let ch := inv.charge.getD ""
        match st.createRefund ch with
        | .error _ => (none, [.listPaidInvoices sub.id, .refundCreate ch])
        | .ok r =>
          match st.cancelNow sub.id with
          | .error _ =>
            (none, [.listPaidInvoices sub.id, .refundCreate ch, .cancelNow sub.id])
          | .ok _ =>
            (some (.refunded ((r.amount : ℚ) / 100)
                "Subscription cancelled and refunded successfully" sub.id),
             [.listPaidInvoices sub.id, .refundCreate ch, .cancelNow sub.id,
              .sendEmail])
      else (none, [.listPaidInvoices sub.id])

/-- The standard tail of the cancel-subscription handler
(src/unnamed/part_000:137-191): `subscriptions.update` clearing
`cancel_at_period_end` for `action = reactivate`, setting it otherwise, then the
fire-and-forget admin email and the 200 response.  An update failure escapes to
the outer catch (500). -/
def standardPhase (st : Stripe) (req : CancelReq) (sub : Subscription)
    (tr : List Ev) : CancelResp × List Ev :=
  let reactivate := req.action == some "reactivate"
  match st.update sub.id (!reactivate) with
  | .error e => (.serverError e, tr ++ [.update sub.id (!reactivate)])
  | .ok s =>
    let msg := if reactivate then "Subscription reactivated successfully"
      else "Subscription will be cancelled at the end of the current period"
    (.completed msg s.id s.cancel_at_period_end s.current_period_end,
     tr ++ [.update sub.id (!reactivate), .sendEmail])

/-- src/unnamed/part_000:74-191, after the subscription is located: the
auto-refund branch runs only when `autoRefund` is truthy, the action is not
`reactivate` and `daysSincePurchase <= 7`; in every other case, and whenever
`refundAttempt` falls through, the standard phase runs. -/
def cancelWithSub (st : Stripe) (req : CancelReq) (nowMs : Int)
    (sub : Subscription) (tr : List Ev) : CancelResp × List Ev :=
  if req.autoRefund = true ∧ req.action ≠ some "reactivate" then
    if cancelRefundEligible nowMs sub.created then
      match refundAttempt st sub with
      | (some resp, tr2) => (resp, tr ++ tr2)
      | (none, tr2) => standardPhase st req sub (tr ++ tr2)
    else standardPhase st req sub tr
  else standardPhase st req sub tr

/-- The cancel-subscription handler (src/unnamed/part_000), POST body path. -/
def cancelHandler (st : Stripe) (req : CancelReq) (nowMs : Int) :
    CancelResp × List Ev :=
  if ¬ jsTruthy req.subscriptionId ∧ ¬ jsTruthy req.email then
    (.badRequest "Subscription ID or email required", [])
  else
    match locateSub st req.subscriptionId req.email with
    | (.error .subNotFound, tr) => (.notFound "Subscription not found", tr)
    | (.error .customerNotFound, tr) => (.notFound "Customer not found", tr)
    | (.error .noSubscription, tr) => (.notFound "No subscription found", tr)
    | (.ok sub, tr) => cancelWithSub st req nowMs sub tr

/-- Request body of the process-refund handler. -/
structure RefundReq where
  subscriptionId : Option String
  email : Option String
deriving Repr, DecidableEq

/-- Responses of the process-refund handler (src/api/send-email.js, second
handler).  `badRequest` and `windowExpired` are HTTP 400, `notFound` 404,
`trialCancelled` and `refundProcessed` 200, `serverError` 500. -/
inductive RefundResp where
  | badRequest (error : String)
  | windowExpired
  | notFound (error : String)
  | trialCancelled (subscriptionId : String)
  | refundProcessed (refundId subscriptionId : String) (amount : ℚ)
      (currency : String)
  | serverError (details : String)
deriving Repr, DecidableEq

/-- The process-refund handler (src/api/send-email.js:90-269), POST body path.
Order of checks as in the source: locate, 7-day window, invoice list
(no status filter, limit 1, empty ⇒ 404), trialing ⇒ immediate cancel with no
refund, missing charge ⇒ 404, else refund then immediate cancel.  The awaited
admin-email `fetch` is wrapped in its own try/catch, so it contributes a trace
event but cannot change the response. -/
def processRefundHandler (st : Stripe) (req : RefundReq) (nowMs : Int) :
    RefundResp × List Ev :=
  if ¬ jsTruthy req.subscriptionId ∧ ¬ jsTruthy req.email then
    (.badRequest "Subscription ID or email required", [])
  else
    match locateSub st req.subscriptionId req.email with
    | (.error .subNotFound, tr) => (.notFound "Subscription not found", tr)
    | (.error .customerNotFound, tr) => (.notFound "Customer not found", tr)
    | (.error .noSubscription, tr) =>
      (.notFound "No subscription found for this customer", tr)
    | (.ok sub, tr) =>
      if refundWindowExpired nowMs sub.created then (.windowExpired, tr)
      else
        match st.invoicesOf sub.id with
        | .error e => (.serverError e, tr ++ [.listInvoices sub.id])
        | .ok invs =>
          let tr := tr ++ [.listInvoices sub.id]
          match (invs.take 1).head? with
          | none => (.notFound "No payment found for this subscription", tr)
          | some inv =>
            if sub.status == "trialing" then
              match st.cancelNow sub.id with
              | .error e => (.serverError e, tr ++ [.cancelNow sub.id])
              | .ok _ =>
                (.trialCancelled sub.id, tr ++ [.cancelNow sub.id, .sendEmail])
            else
              if jsTruthy inv.charge then
                let ch := inv.charge.getD ""
                match st.createRefund ch with
                | .error e => (.serverError e, tr ++ [.refundCreate ch])
                | .ok r =>
                  match st.cancelNow sub.id with
                  | .error e =>
                    (.serverError e, tr ++ [.refundCreate ch, .cancelNow sub.id])
                  | .ok _ =>
                    (.refundProcessed r.id sub.id ((r.amount : ℚ) / 100)
                        r.currency.toUpper,
                     tr ++ [.refundCreate ch, .cancelNow sub.id, .sendEmail])
              else (.notFound "No charge found to refund", tr)

/-- JS `String.prototype.toLowerCase`, modelled character-wise (ASCII case
mapping); written over the character list so concrete runs kernel-evaluate,
which `String.toLower` does not. -/
def jsToLower (s : String) : String :=
  String.mk (s.data.map Char.toLower)

/-- JS `String.prototype.trim`: strip leading and trailing whitespace,
modelled over the character list. -/
def jsTrim (s : String) : String :=
  String.mk
    (((s.data.dropWhile Char.isWhitespace).reverse.dropWhile
        Char.isWhitespace).reverse)

/-- The test `sub.status === 'active' || sub.status === 'trialing'`
(src/api/verify-license.js:62-64). -/
def isActiveOrTrialing (s : Subscription) : Bool :=
  s.status == "active" || s.status == "trialing"

/-- The per-customer loop of the verify-license email fallback
(src/api/verify-license.js:53-71): for each customer in order, list its
subscriptions (limit 10) and stop at the first customer having an
active-or-trialing one. -/
def firstActiveAcross (st : Stripe) : List Customer → Option Subscription
  | [] => none
  | c :: rest =>
    match ((st.subsOf c.id).take 10).find? isActiveOrTrialing with
    | some s => some s
    | none => firstActiveAcross st rest

/-- The email fallback of the verify-license handler
(src/api/verify-license.js:44-71): normalize the key with
`toLowerCase().trim()`, `customers.list({email, limit: 10})`, then scan the
customers for the first active-or-trialing subscription. -/
def vlLocateByEmail (st : Stripe) (licenseKey : String) : Option Subscription :=
  firstActiveAcross st (listByEmail st (jsTrim (jsToLower licenseKey)) 10)

/-- Responses of the verify-license handler (src/api/verify-license.js, first
handler).  `badRequest` is HTTP 400, `notFoundInvalid` 404, `notActive` and
`expired` 200 with `valid:false`, `valid` 200 with `valid:true` (`expiry` is the
epoch-second instant that the source renders as an ISO-8601 string),
`stripeError` the 500 `valid:false` response of the inner catch. -/
inductive VerifyResp where
  | badRequest
  | notFoundInvalid
  | notActive (status : String)
  | expired
  | valid (subscriptionId customerId status : String) (expiry : Int)
      (cancelAtPeriodEnd : Bool) (trialEnd : Option Int)
  | stripeError
deriving Repr, DecidableEq

/-- The `valid:true` return of verify-license (src/api/verify-license.js:103-114).
Its object literal contains `email: customerEmail || normalizedLicenseKey`
(line 111); neither `customerEmail` nor `normalizedLicenseKey` is declared
anywhere in the handler, so evaluating the literal throws a `ReferenceError`
before the response is sent.  The throw lands in the `catch (stripeError)` at
line 116.  We embed the branch as that thrown error; the fully-built response it
would otherwise produce is kept in the (dead) `.ok` shape of the signature so
the claim about it remains statable. -/
def buildValidResponse (_sub : Subscription) : Except String VerifyResp :=
  .error "ReferenceError: customerEmail is not defined"

/-- The verify-license handler (src/api/verify-license.js:4-128), POST body
path: retrieve by id, fall back to the email search; missing ⇒ 404; status not
active/trialing ⇒ `valid:false`; `current_period_end` in the past ⇒ expired;
otherwise the `valid:true` branch, whose thrown `ReferenceError` the inner
catch converts to the 500 `stripeError` response. -/
def verifyLicenseHandler (st : Stripe) (licenseKey : String) (nowMs : Int) :
    VerifyResp :=
  if licenseKey = "" then .badRequest
  else
    let found : Option Subscription :=
      match st.retrieve licenseKey with
      | .ok s => some s
      | .error _ => vlLocateByEmail st licenseKey
    match found with
    | none => .notFoundInvalid
    | some sub =>
      if sub.status ≠ "active" ∧ sub.status ≠ "trialing" then
        .notActive sub.status
      else if sub.current_period_end * 1000 < nowMs then .expired
      else
        match buildValidResponse sub with
        | .ok r => r
        | .error _ => .stripeError

/-- A parsed Stripe webhook event, with the fields the handler reads
(`event.type`, `session.mode`, `session.subscription`). -/
structure WebhookEvent where
  type : String
  mode : Option String
  subscription : Option String
deriving Repr, DecidableEq

/-- Environment of the stripe-webhook handler: `constructEvent` performs the
signature verification against the shared secret and parses the payload
(src/api/verify-license.js:153), failing exactly when verification fails;
`retrieve` is `stripe.subscriptions.retrieve`. -/
structure WebhookEnv where
  constructEvent : String → String → Except String WebhookEvent
  retrieve : String → Except String Subscription

/-- Responses of the stripe-webhook handler: `rejected` is the HTTP 400 of a
failed signature verification, `received` the 200 `{received: true}`
acknowledgment. -/
inductive WebhookResp where
  | rejected (message : String)
  | received
deriving Repr, DecidableEq

/-- The stripe-webhook handler (src/api/verify-license.js:133-200), POST path
with configuration present: verify-and-parse, 400 on failure; otherwise switch
on the event type — `checkout.session.completed` retrieves the session's
subscription (its failure is caught and only logged), the update/delete cases
and unknown types only log — and acknowledge with `{received: true}`. -/
def stripeWebhookHandler (env : WebhookEnv) (body sig : String) :
    WebhookResp × List Ev :=
  match env.constructEvent body sig with
  | .error m => (.rejected ("Webhook Error: " ++ m), [])
  | .ok ev =>
    if ev.type == "checkout.session.completed" then
      if ev.mode == some "subscription" ∧ jsTruthy ev.subscription then
        (.received, [.retrieveSub (ev.subscription.getD "")])
      else (.received, [])
    else (.received, [])

/-- Modelled from the spec (§4.1), for comparison with the code: the email rule
of the Subscription Locator.  "look up customers by exact email match
(case-insensitive, surrounding whitespace trimmed)" — i.e. exact comparison
after lowercasing and trimming the supplied email, as claim C4 reads it —
"if multiple customers share the email, enumerate each customer's subscriptions
and return the first one whose status is `active` or `trialing`; if none
qualifies, NotFound." -/
def specEmailLocate (st : Stripe) (email : String) : Option Subscription :=
  ((st.customers.filter (fun c => c.email == jsTrim (jsToLower email))).flatMap
      (fun c => st.subsOf c.id)).find? isActiveOrTrialing

/-- A well-behaved concrete provider over stored customer and subscription
lists: retrieval and writes find by id, `update` returns the subscription with
`cancel_at_period_end` set to the requested flag, `cancelNow` returns it with
status `canceled`, invoice listings and refund creation always succeed. -/
def mkStripe (cs : List Customer) (subs : List Subscription)
    (paid inv : String → List Invoice) (refundOf : String → Refund) : Stripe where
  customers := cs
  subsOf cid := subs.filter (fun s => s.customer == cid)
  retrieve sid :=
    match subs.find? (fun s => s.id == sid) with
    | some s => .ok s
    | none => .error "No such subscription"
  paidInvoicesOf sid := .ok (paid sid)
  invoicesOf sid := .ok (inv sid)
  createRefund ch := .ok (refundOf ch)
  cancelNow sid :=
    match subs.find? (fun s => s.id == sid) with
    | some s => .ok { s with status := "canceled" }
    | none => .error "No such subscription"
  update sid flag :=
    match subs.find? (fun s => s.id == sid) with
    | some s => .ok { s with cancel_at_period_end := flag }
    | none => .error "No such subscription"

/-- Events that write a cancellation to the provider: `subscriptions.cancel`
and `subscriptions.update({cancel_at_period_end: true})`. -/
def isCancelWrite : Ev → Bool
  | .cancelNow _ => true
  | .update _ flag => flag
  | _ => false

/-- Refund-creation events. -/
def isRefundCreate : Ev → Bool
  | .refundCreate _ => true
  | _ => false

/-- No refund creation occurs after a cancellation write anywhere in the
trace. -/
def noRefundAfterCancel : List Ev → Bool
  | [] => true
  | e :: rest =>
    if isCancelWrite e then rest.all (fun x => !isRefundCreate x)
    else noRefundAfterCancel rest

end Nimbus

namespace Nimbus

/-- C1.  Both handlers decide the refund window by `daysSincePurchase ≤ 7`
with an inclusive boundary: the cancel handler is eligible exactly when the
fractional day count is at most 7, the process-refund handler's expiry test is
its exact negation, a subscription created exactly 7.0 days (604800000 ms)
before `now` is eligible, and one millisecond past 7 days is not. -/
theorem refund_window_inclusive_seven_days (created : Int) :
    (∀ nowMs : Int,
        (cancelRefundEligible nowMs created = true ↔
          daysSincePurchase nowMs created ≤ 7)
        ∧ refundWindowExpired nowMs created = !cancelRefundEligible nowMs created)
    ∧ cancelRefundEligible (created * 1000 + 604800000) created = true
    ∧ cancelRefundEligible (created * 1000 + 604800001) created = false := by
  refine ⟨fun nowMs => ⟨?_, ?_⟩, ?_, ?_⟩
  · simp [cancelRefundEligible]
  · simp [refundWindowExpired, cancelRefundEligible]
    by_cases h : daysSincePurchase nowMs created ≤ 7
    · simp [h, not_lt.mpr h]
    · simp [h, lt_of_not_le h]
  · have h : created * 1000 + 604800000 - created * 1000 = (604800000 : Int) := by ring
    simp only [cancelRefundEligible, daysSincePurchase, h]
    decide
  · have h : created * 1000 + 604800001 - created * 1000 = (604800001 : Int) := by ring
    simp only [cancelRefundEligible, daysSincePurchase, h]
    decide

/-- A dummy refund used to fill the refund-creation field of concrete
environments. -/
def refundStub : Refund := { id := "re_1", amount := 499, currency := "gbp" }

/-- Concrete active subscription used to exercise the verify-license success
branch: status `active`, period end 1 800 000 000 s (in the future of the
request instant used below). -/
def subActive : Subscription :=
  { id := "sub_c2", status := "active", created := 1690000000
    current_period_end := 1800000000, cancel_at_period_end := false
    customer := "cus_c2", trial_end := none }

/-- Environment holding exactly `subActive`. -/
def stActive : Stripe :=
  mkStripe [{ id := "cus_c2", email := "c2@example.com" }] [subActive]
    (fun _ => []) (fun _ => []) (fun _ => refundStub)

/-- C2 (code bug).  A license check whose key resolves to an active
subscription with `current_period_end` in the future does not produce the
`valid:true` success result: the response object of
src/api/verify-license.js:103-114 references the undeclared identifiers
`customerEmail` and `normalizedLicenseKey` (line 111), so building it throws a
`ReferenceError` that the catch at line 116 turns into the 500
`Error verifying license key` response.  Evaluated here at a concrete failing
input. -/
theorem verify_license_valid_branch_throws :
    verifyLicenseHandler stActive "sub_c2" 1700000000000 = VerifyResp.stripeError := by
  decide

/-- C9.  A webhook request whose payload fails signature verification is
rejected: the handler returns the 400 rejection, makes no provider call at all
(empty trace), and does not produce the `{received: true}` acknowledgment. -/
theorem webhook_rejected_on_bad_signature (env : WebhookEnv) (body sig m : String)
    (h : env.constructEvent body sig = .error m) :
    stripeWebhookHandler env body sig = (.rejected ("Webhook Error: " ++ m), [])
    ∧ (stripeWebhookHandler env body sig).1 ≠ WebhookResp.received := by
  simp [stripeWebhookHandler, h]

/-- A webhook environment whose signature verification always fails. -/
def badSigEnv : WebhookEnv where
  constructEvent _ _ := .error "Invalid signature"
  retrieve _ := .error "unreachable"

/-- Witness for C9 at a concrete payload. -/
theorem webhook_rejected_on_bad_signature_witness :
    stripeWebhookHandler badSigEnv "payload" "t=1,v1=deadbeef"
      = (.rejected "Webhook Error: Invalid signature", [])
    ∧ (stripeWebhookHandler badSigEnv "payload" "t=1,v1=deadbeef").1
      ≠ WebhookResp.received :=
  webhook_rejected_on_bad_signature badSigEnv "payload" "t=1,v1=deadbeef"
    "Invalid signature" rfl

/-- The lookup trace contains only read events (retrieve / customer list /
subscription list); in particular it never contains a cancellation write. -/
theorem locateSub_trace_clean (st : Stripe) (sid em : Option String) :
    (locateSub st sid em).2.all (fun e => !isCancelWrite e) = true := by
  simp only [locateSub]
  split
  · split <;> simp [isCancelWrite]
  · split
    · simp [isCancelWrite]
    · split <;> simp [isCancelWrite]

/-- C10.  In the process-refund handler the 7-day window check precedes the
trialing check: a trialing subscription more than 7 days old gets the 400
`Refund window expired` client error, and no cancellation write is issued — the
trial is not cancelled. -/
theorem refund_window_checked_before_trialing (st : Stripe) (req : RefundReq)
    (nowMs : Int) (s : Subscription) (tr0 : List Ev)
    (hguard : jsTruthy req.subscriptionId = true ∨ jsTruthy req.email = true)
    (hloc : locateSub st req.subscriptionId req.email = (.ok s, tr0))
    (hstatus : s.status = "trialing")
    (hd : 7 < daysSincePurchase nowMs s.created) :
    processRefundHandler st req nowMs = (.windowExpired, tr0)
    ∧ ((processRefundHandler st req nowMs).2.all
        (fun e => !isCancelWrite e)) = true := by
  have hg : ¬ (¬ jsTruthy req.subscriptionId ∧ ¬ jsTruthy req.email) := by
    rcases hguard with h | h
    · exact fun hc => hc.1 h
    · exact fun hc => hc.2 h
  have hexp : refundWindowExpired nowMs s.created = true := by
    simp [refundWindowExpired, hd]
  have hres : processRefundHandler st req nowMs = (.windowExpired, tr0) := by
    simp only [processRefundHandler, hloc]
    rw [if_neg hg]
    simp [hexp]
  refine ⟨hres, ?_⟩
  have := locateSub_trace_clean st req.subscriptionId req.email
  rw [hres]
  rw [hloc] at this
  exact this

/-- Trialing subscription created at epoch 0, used for out-of-window and
in-window trial scenarios. -/
def subTrial : Subscription :=
  { id := "sub_tr", status := "trialing", created := 0
    current_period_end := 2000000, cancel_at_period_end := false
    customer := "cus_tr", trial_end := some 1209600 }

/-- Environment holding exactly `subTrial`, with no invoices. -/
def stTrial : Stripe :=
  mkStripe [{ id := "cus_tr", email := "tr@example.com" }] [subTrial]
    (fun _ => []) (fun _ => []) (fun _ => refundStub)

/-- Witness for C10: the trial above, requested 10 days (864000000 ms) after
creation. -/
theorem refund_window_checked_before_trialing_witness :
    processRefundHandler stTrial
        { subscriptionId := some "sub_tr", email := none } 864000000
      = (.windowExpired, [.retrieveSub "sub_tr"])
    ∧ ((processRefundHandler stTrial
        { subscriptionId := some "sub_tr", email := none } 864000000).2.all
        (fun e => !isCancelWrite e)) = true :=
  refund_window_checked_before_trialing stTrial
    { subscriptionId := some "sub_tr", email := none } 864000000 subTrial
    [.retrieveSub "sub_tr"] (Or.inl (by decide)) (by rfl) (by rfl) (by decide)

/-- The 200 responses of the cancel-subscription handler. -/
def CancelResp.isSuccess : CancelResp → Bool
  | .refunded _ _ _ => true
  | .completed _ _ _ _ => true
  | _ => false

/-- An identifier was supplied, so the 400 guard does not fire. -/
theorem guard_of_truthy {a b : Option String}
    (h : jsTruthy a = true ∨ jsTruthy b = true) :
    ¬ (¬ jsTruthy a ∧ ¬ jsTruthy b) := by
  rcases h with h | h
  · exact fun hc => hc.1 h
  · exact fun hc => hc.2 h

/-- With a located subscription, the cancel handler is its post-lookup body. -/
theorem cancelHandler_located (st : Stripe) (req : CancelReq) (nowMs : Int)
    (s : Subscription) (tr0 : List Ev)
    (hguard : jsTruthy req.subscriptionId = true ∨ jsTruthy req.email = true)
    (hloc : locateSub st req.subscriptionId req.email = (.ok s, tr0)) :
    cancelHandler st req nowMs = cancelWithSub st req nowMs s tr0 := by
  simp only [cancelHandler, hloc]
  rw [if_neg (guard_of_truthy hguard)]

/-- For any action other than `reactivate`, the standard phase sets
`cancel_at_period_end` and answers with the period-end cancellation message. -/
theorem standardPhase_cancel (st : Stripe) (req : CancelReq) (sub : Subscription)
    (tr : List Ev) (s' : Subscription)
    (hact : req.action ≠ some "reactivate")
    (hupd : st.update sub.id true = .ok s') :
    standardPhase st req sub tr
      = (.completed "Subscription will be cancelled at the end of the current period"
          s'.id s'.cancel_at_period_end s'.current_period_end,
         tr ++ [.update sub.id true, .sendEmail]) := by
  have hb : (req.action == some "reactivate") = false := by
    rw [beq_eq_false_iff_ne]
    exact hact
  simp only [standardPhase, hb, Bool.not_false, hupd]
  rfl

/-- For `action = reactivate`, the standard phase clears
`cancel_at_period_end` and answers with the reactivation message. -/
theorem standardPhase_reactivate (st : Stripe) (req : CancelReq)
    (sub : Subscription) (tr : List Ev) (s' : Subscription)
    (hact : req.action = some "reactivate")
    (hupd : st.update sub.id false = .ok s') :
    standardPhase st req sub tr
      = (.completed "Subscription reactivated successfully"
          s'.id s'.cancel_at_period_end s'.current_period_end,
         tr ++ [.update sub.id false, .sendEmail]) := by
  have hb : (req.action == some "reactivate") = true := by
    rw [beq_iff_eq]
    exact hact
  simp only [standardPhase, hb, Bool.not_true, hupd]
  rfl

/-- C5.  When an eligible auto-refund request hits any failure while issuing
the refund — the paid-invoice lookup, the refund creation or the immediate
cancel throwing (all the cases in which `refundAttempt` falls through) — the
failure is caught and the request still completes with the standard 200
period-end cancellation response, not a server error. -/
theorem refund_failure_falls_back_to_cancellation (st : Stripe) (req : CancelReq)
    (nowMs : Int) (s : Subscription) (tr0 : List Ev) (s' : Subscription)
    (hguard : jsTruthy req.subscriptionId = true ∨ jsTruthy req.email = true)
    (hauto : req.autoRefund = true)
    (hact : req.action ≠ some "reactivate")
    (hloc : locateSub st req.subscriptionId req.email = (.ok s, tr0))
    (hwin : daysSincePurchase nowMs s.created ≤ 7)
    (hfail : (refundAttempt st s).1 = none)
    (hupd : st.update s.id true = .ok s') :
    (cancelHandler st req nowMs).1
      = .completed "Subscription will be cancelled at the end of the current period"
          s'.id s'.cancel_at_period_end s'.current_period_end
    ∧ ((cancelHandler st req nowMs).1).isSuccess = true := by
  have helig : cancelRefundEligible nowMs s.created = true := by
    simp [cancelRefundEligible, hwin]
  have hsplit : refundAttempt st s = (none, (refundAttempt st s).2) := by
    rw [← hfail]
  have hres : cancelHandler st req nowMs
      = (.completed "Subscription will be cancelled at the end of the current period"
          s'.id s'.cancel_at_period_end s'.current_period_end,
         (tr0 ++ (refundAttempt st s).2) ++ [.update s.id true, .sendEmail]) := by
    rw [cancelHandler_located st req nowMs s tr0 hguard hloc]
    simp only [cancelWithSub, helig, if_true]
    rw [if_pos ⟨hauto, hact⟩, hsplit]
    exact standardPhase_cancel st req s _ s' hact hupd
  rw [hres]
  simp [CancelResp.isSuccess]

/-- Active subscription created at epoch 0, with a refundable charge. -/
def subRefundable : Subscription :=
  { id := "sub_rf", status := "active", created := 0
    current_period_end := 2678400, cancel_at_period_end := false
    customer := "cus_rf", trial_end := none }

/-- Environment for the C5 witness: one active subscription with a paid
invoice carrying a charge, but a provider that fails every refund creation. -/
def stRefundFails : Stripe :=
  { customers := [{ id := "cus_rf", email := "rf@example.com" }]
    subsOf := fun cid =>
      if cid = "cus_rf" then [subRefundable] else []
    retrieve := fun sid =>
      if sid = "sub_rf" then .ok subRefundable else .error "No such subscription"
    paidInvoicesOf := fun _ => .ok [{ id := "in_rf", charge := some "ch_rf" }]
    invoicesOf := fun _ => .ok [{ id := "in_rf", charge := some "ch_rf" }]
    createRefund := fun _ => .error "Refund creation failed"
    cancelNow := fun _ => .error "unreachable"
    update := fun sid flag =>
      if sid = "sub_rf" then .ok { subRefundable with cancel_at_period_end := flag }
      else .error "No such subscription" }

/-- Witness for C5: the refund-creation failure above still yields the 200
period-end cancellation response. -/
theorem refund_failure_falls_back_to_cancellation_witness :
    (cancelHandler stRefundFails
        { subscriptionId := some "sub_rf", email := none, action := none
          autoRefund := true, reason := none } 86400000).1
      = .completed "Subscription will be cancelled at the end of the current period"
          "sub_rf" true subRefundable.current_period_end
    ∧ ((cancelHandler stRefundFails
        { subscriptionId := some "sub_rf", email := none, action := none
          autoRefund := true, reason := none } 86400000).1).isSuccess = true :=
  refund_failure_falls_back_to_cancellation stRefundFails
    { subscriptionId := some "sub_rf", email := none, action := none
      autoRefund := true, reason := none } 86400000 subRefundable
    [.retrieveSub "sub_rf"] { subRefundable with cancel_at_period_end := true }
    (Or.inl (by decide)) rfl (by decide) (by rfl) (by decide) (by rfl) (by rfl)

/-- C6.  An auto-refund cancel request on a subscription more than 7 days old
behaves exactly like the plain cancel request (`autoRefund = false`), and — the
provider update succeeding and setting the flag — yields the 200 period-end
cancellation response with `cancelAtPeriodEnd = true`, never an error. -/
theorem autorefund_outside_window_degrades (st : Stripe) (req : CancelReq)
    (nowMs : Int) (s : Subscription) (tr0 : List Ev) (s' : Subscription)
    (hguard : jsTruthy req.subscriptionId = true ∨ jsTruthy req.email = true)
    (hauto : req.autoRefund = true)
    (hact : req.action ≠ some "reactivate")
    (hloc : locateSub st req.subscriptionId req.email = (.ok s, tr0))
    (hd : 7 < daysSincePurchase nowMs s.created)
    (hupd : st.update s.id true = .ok s')
    (hflag : s'.cancel_at_period_end = true) :
    cancelHandler st req nowMs
      = cancelHandler st { req with autoRefund := false } nowMs
    ∧ cancelHandler st req nowMs
      = (.completed "Subscription will be cancelled at the end of the current period"
          s'.id true s'.current_period_end,
         tr0 ++ [.update s.id true, .sendEmail]) := by
  have helig : cancelRefundEligible nowMs s.created = false := by
    simp only [cancelRefundEligible, decide_eq_false_iff_not]
    exact not_le.mpr hd
  have hstd : standardPhase st req s tr0
      = (.completed "Subscription will be cancelled at the end of the current period"
          s'.id true s'.current_period_end,
         tr0 ++ [.update s.id true, .sendEmail]) := by
    rw [standardPhase_cancel st req s tr0 s' hact hupd, hflag]
  have h1 : cancelHandler st req nowMs = standardPhase st req s tr0 := by
    rw [cancelHandler_located st req nowMs s tr0 hguard hloc]
    simp only [cancelWithSub, helig]
    rw [if_pos ⟨hauto, hact⟩]
    simp
  have h2 : cancelHandler st { req with autoRefund := false } nowMs
      = standardPhase st req s tr0 := by
    rw [cancelHandler_located st { req with autoRefund := false } nowMs s tr0
      hguard hloc]
    simp only [cancelWithSub]
    rw [if_neg (by simp)]
    rfl
  exact ⟨h1.trans h2.symm, h1.trans hstd⟩

/-- Witness for C6: `subRefundable` requested 10 days after creation with
`autoRefund = true` degrades to the plain period-end cancellation. -/
theorem autorefund_outside_window_degrades_witness :
    cancelHandler stRefundFails
        { subscriptionId := some "sub_rf", email := none, action := none
          autoRefund := true, reason := none } 864000000
      = cancelHandler stRefundFails
        { subscriptionId := some "sub_rf", email := none, action := none
          autoRefund := false, reason := none } 864000000
    ∧ cancelHandler stRefundFails
        { subscriptionId := some "sub_rf", email := none, action := none
          autoRefund := true, reason := none } 864000000
      = (.completed "Subscription will be cancelled at the end of the current period"
          "sub_rf" true subRefundable.current_period_end,
         [.retrieveSub "sub_rf", .update "sub_rf" true, .sendEmail]) :=
  autorefund_outside_window_degrades stRefundFails
    { subscriptionId := some "sub_rf", email := none, action := none
      autoRefund := true, reason := none } 864000000 subRefundable
    [.retrieveSub "sub_rf"] { subRefundable with cancel_at_period_end := true }
    (Or.inl (by decide)) rfl (by decide) (by rfl) (by decide) (by rfl) (by rfl)

/-- The stored subscriptions after a successful reactivation of `sid`: its
pending-cancellation flag is cleared, everything else unchanged. -/
def reactList (subs : List Subscription) (sid : String) : List Subscription :=
  subs.map (fun x =>
    if x.id == sid then { x with cancel_at_period_end := false } else x)

/-- Clearing the flag commutes with looking the subscription up by id. -/
theorem find?_reactList (subs : List Subscription) (sid : String) :
    (reactList subs sid).find? (fun s => s.id == sid)
      = (subs.find? (fun s => s.id == sid)).map
          (fun s => { s with cancel_at_period_end := false }) := by
  simp only [reactList]
  rw [List.find?_map]
  have hp : ((fun s : Subscription => s.id == sid) ∘ fun x =>
      if (x.id == sid) = true then { x with cancel_at_period_end := false }
      else x) = fun s : Subscription => s.id == sid := by
    funext x
    by_cases h : (x.id == sid) = true
    · have hx := eq_of_beq h
      simp [hx]
    · have hx : ¬ x.id = sid := by simpa using h
      simp [hx]
  rw [hp]
  cases hf : subs.find? (fun s => s.id == sid) with
  | none => rfl
  | some s =>
    have hps : (s.id == sid) = true := by
      have h0 := List.find?_some hf
      simpa using h0
    simp [eq_of_beq hps]

/-- One reactivation run against a well-behaved provider: the handler clears
the flag of the stored subscription and returns the 200 reactivation
response. -/
theorem mkStripe_reactivate_run (cs : List Customer) (subs : List Subscription)
    (paid inv : String → List Invoice) (refundOf : String → Refund)
    (sid : String) (s : Subscription) (req : CancelReq) (nowMs : Int)
    (hfind : subs.find? (fun x => x.id == sid) = some s)
    (hsid : req.subscriptionId = some sid) (hne : sid ≠ "")
    (hact : req.action = some "reactivate") :
    cancelHandler (mkStripe cs subs paid inv refundOf) req nowMs
      = (.completed "Subscription reactivated successfully" s.id false
          s.current_period_end,
         [.retrieveSub sid, .update s.id false, .sendEmail]) := by
  have hbeq : (s.id == sid) = true := by
    have h0 := List.find?_some hfind
    simpa using h0
  have hsid_eq : s.id = sid := eq_of_beq hbeq
  have htruthy : jsTruthy req.subscriptionId = true := by
    rw [hsid]
    simp [jsTruthy, hne]
  have hloc1 : locateSub (mkStripe cs subs paid inv refundOf)
      req.subscriptionId req.email = (.ok s, [.retrieveSub sid]) := by
    rw [hsid]
    simp [locateSub, jsTruthy, hne, mkStripe, hfind]
  have hupd : (mkStripe cs subs paid inv refundOf).update s.id false
      = .ok { s with cancel_at_period_end := false } := by
    simp [mkStripe, hsid_eq, hfind]
  rw [cancelHandler_located _ req nowMs s _ (Or.inl htruthy) hloc1]
  simp only [cancelWithSub]
  rw [if_neg (by simp [hact])]
  rw [standardPhase_reactivate _ req s _ _ hact hupd]
  rfl

/-- C8.  Reactivation is idempotent: `action = reactivate` clears the
cancel-at-period-end flag and returns the 200 `Reactivated` response, and the
run against the store in which the flag is already cleared (the state after a
first reactivation, `reactList`) returns exactly the same response — never an
error. -/
theorem reactivate_clears_flag_and_is_idempotent (cs : List Customer)
    (subs : List Subscription) (paid inv : String → List Invoice)
    (refundOf : String → Refund) (sid : String) (s : Subscription)
    (req : CancelReq) (nowMs : Int)
    (hfind : subs.find? (fun x => x.id == sid) = some s)
    (hsid : req.subscriptionId = some sid) (hne : sid ≠ "")
    (hact : req.action = some "reactivate") :
    cancelHandler (mkStripe cs subs paid inv refundOf) req nowMs
      = (.completed "Subscription reactivated successfully" s.id false
          s.current_period_end,
         [.retrieveSub sid, .update s.id false, .sendEmail])
    ∧ cancelHandler (mkStripe cs (reactList subs sid) paid inv refundOf) req nowMs
      = cancelHandler (mkStripe cs subs paid inv refundOf) req nowMs := by
  have hrun1 := mkStripe_reactivate_run cs subs paid inv refundOf sid s req nowMs
    hfind hsid hne hact
  have hfind2 : (reactList subs sid).find? (fun x => x.id == sid)
      = some { s with cancel_at_period_end := false } := by
    rw [find?_reactList, hfind]
    rfl
  have hrun2 := mkStripe_reactivate_run cs (reactList subs sid) paid inv refundOf
    sid { s with cancel_at_period_end := false } req nowMs hfind2 hsid hne hact
  exact ⟨hrun1, by rw [hrun1, hrun2]⟩

/-- A subscription pending cancellation at period end. -/
def subPending : Subscription :=
  { id := "sub_p", status := "active", created := 0
    current_period_end := 2678400, cancel_at_period_end := true
    customer := "cus_p", trial_end := none }

/-- Witness for C8: reactivating `subPending`, and reactivating again after
the flag is already cleared, both return the same 200 response. -/
theorem reactivate_clears_flag_and_is_idempotent_witness :
    cancelHandler (mkStripe [] [subPending] (fun _ => []) (fun _ => [])
        (fun _ => refundStub))
        { subscriptionId := some "sub_p", email := none
          action := some "reactivate", autoRefund := false, reason := none }
        86400000
      = (.completed "Subscription reactivated successfully" subPending.id false
          subPending.current_period_end,
         [.retrieveSub "sub_p", .update subPending.id false, .sendEmail])
    ∧ cancelHandler (mkStripe [] (reactList [subPending] "sub_p") (fun _ => [])
        (fun _ => []) (fun _ => refundStub))
        { subscriptionId := some "sub_p", email := none
          action := some "reactivate", autoRefund := false, reason := none }
        86400000
      = cancelHandler (mkStripe [] [subPending] (fun _ => []) (fun _ => [])
          (fun _ => refundStub))
        { subscriptionId := some "sub_p", email := none
          action := some "reactivate", autoRefund := false, reason := none }
        86400000 :=
  reactivate_clears_flag_and_is_idempotent [] [subPending] (fun _ => [])
    (fun _ => []) (fun _ => refundStub) "sub_p" subPending
    { subscriptionId := some "sub_p", email := none
      action := some "reactivate", autoRefund := false, reason := none }
    86400000 (by rfl) rfl (by decide) rfl

/-- Lookup over an append scans the left list first. -/
theorem find?_append_or (p : Subscription → Bool) (l1 l2 : List Subscription) :
    (l1 ++ l2).find? p = ((l1.find? p).or (l2.find? p)) :=
  List.find?_append

/-- When no per-customer subscription list is truncated by the limit of 10,
the verify-license scan equals the first active-or-trialing subscription of
the concatenation of all the customers' subscriptions. -/
theorem firstActiveAcross_eq_flat (st : Stripe) :
    ∀ cs : List Customer,
      (∀ c ∈ cs, (st.subsOf c.id).length ≤ 10) →
      firstActiveAcross st cs
        = (cs.flatMap (fun c => st.subsOf c.id)).find? isActiveOrTrialing := by
  intro cs
  induction cs with
  | nil => intro _; rfl
  | cons c rest ih =>
    intro h
    have hc : (st.subsOf c.id).take 10 = st.subsOf c.id :=
      List.take_of_length_le (h c (by simp))
    have hrest := ih (fun x hx => h x (by simp [hx]))
    simp only [firstActiveAcross, hc, List.flatMap_cons, find?_append_or, hrest]
    cases (st.subsOf c.id).find? isActiveOrTrialing with
    | none => simp [Option.or]
    | some s => simp [Option.or]

/-- C4, as claimed for every email lookup (the proposition refuted below): the
cancel-subscription email lookup and the verify-license email fallback both
implement the spec Locator — normalize the email, enumerate every matching
customer's subscriptions, return the first active-or-trialing one, not-found
otherwise. -/
def ClaimC4 : Prop :=
  ∀ (st : Stripe) (email : String), email ≠ "" →
    (match (locateSub st none (some email)).1 with
      | .ok s => some s
      | .error _ => none) = specEmailLocate st email
    ∧ vlLocateByEmail st email = specEmailLocate st email

/-- A canceled subscription owned by the only customer with its email. -/
def subCanceledC4 : Subscription :=
  { id := "sub_x", status := "canceled", created := 0
    current_period_end := 2678400, cancel_at_period_end := false
    customer := "cus_x", trial_end := none }

/-- Environment for the C4 counterexample: one matching customer whose only
subscription is canceled. -/
def stC4 : Stripe :=
  mkStripe [{ id := "cus_x", email := "x@example.com" }] [subCanceledC4]
    (fun _ => []) (fun _ => []) (fun _ => refundStub)

/-- C4 counterexample.  At `stC4` the cancel-subscription email lookup returns
the canceled subscription (it takes the first customer's first subscription
with no status filter), while the spec Locator returns not-found because no
active-or-trialing subscription exists — so the claim is false as stated. -/
theorem email_locator_claim_false : ¬ ClaimC4 := by
  intro h
  have h1 := (h stC4 "x@example.com" (by decide)).1
  exact absurd h1 (by decide)

/-- C4 as amended.  The verify-license email fallback does implement the spec
Locator — it lowercases and trims the supplied email and returns the first
active-or-trialing subscription across the matching customers — whenever its
limits of 10 customers and 10 subscriptions per customer truncate nothing;
the cancel-subscription lookup does not (see the counterexample). -/
theorem vl_email_locate_matches_spec (st : Stripe) (licenseKey : String)
    (hc : (st.customers.filter
        (fun c => c.email == jsTrim (jsToLower licenseKey))).length ≤ 10)
    (hs : ∀ c ∈ st.customers.filter
        (fun c => c.email == jsTrim (jsToLower licenseKey)),
        (st.subsOf c.id).length ≤ 10) :
    vlLocateByEmail st licenseKey = specEmailLocate st licenseKey := by
  rw [vlLocateByEmail, specEmailLocate, listByEmail,
    List.take_of_length_le hc]
  exact firstActiveAcross_eq_flat st _ hs

/-- An active subscription for the C4 witness, second in its customer list. -/
def subActiveC4 : Subscription :=
  { id := "sub_y2", status := "active", created := 0
    current_period_end := 2678400, cancel_at_period_end := false
    customer := "cus_y", trial_end := none }

/-- Environment for the C4 witness: one matching customer owning a canceled
subscription listed before an active one. -/
def stC4w : Stripe :=
  mkStripe [{ id := "cus_y", email := "y@example.com" }]
    [{ subCanceledC4 with id := "sub_y1", customer := "cus_y" }, subActiveC4]
    (fun _ => []) (fun _ => []) (fun _ => refundStub)

/-- Witness for the amended C4: on `stC4w` (limits not exceeded) the
verify-license fallback and the spec Locator agree, both skipping the canceled
subscription and returning the active one. -/
theorem vl_email_locate_matches_spec_witness :
    vlLocateByEmail stC4w " Y@Example.COM " = specEmailLocate stC4w " Y@Example.COM " :=
  vl_email_locate_matches_spec stC4w " Y@Example.COM " (by decide) (by decide)



/-- Events that neither write a cancellation nor create a refund. -/
def isReadEv (e : Ev) : Bool :=
  !isCancelWrite e && !isRefundCreate e

/-- The lookup trace consists of read events only. -/
theorem locateSub_trace_reads (st : Stripe) (sid em : Option String) :
    (locateSub st sid em).2.all isReadEv = true := by
  simp only [locateSub]
  split
  · split <;> simp [isReadEv, isCancelWrite, isRefundCreate]
  · split
    · simp [isReadEv, isCancelWrite, isRefundCreate]
    · split <;> simp [isReadEv, isCancelWrite, isRefundCreate]

/-- A read-only prefix never affects `noRefundAfterCancel`. -/
theorem nrac_append_reads (l1 l2 : List Ev) (h1 : l1.all isReadEv = true)
    (h2 : noRefundAfterCancel l2 = true) :
    noRefundAfterCancel (l1 ++ l2) = true := by
  induction l1 with
  | nil => simpa using h2
  | cons e l ih =>
    simp only [List.all_cons, Bool.and_eq_true] at h1
    have he : isCancelWrite e = false := by
      have := h1.1
      simp only [isReadEv, Bool.and_eq_true, Bool.not_eq_true'] at this
      exact this.1
    simp only [List.cons_append, noRefundAfterCancel, he, Bool.false_eq_true,
      if_false]
    exact ih h1.2

/-- A list of read events satisfies `noRefundAfterCancel`. -/
theorem nrac_of_reads (l : List Ev) (h : l.all isReadEv = true) :
    noRefundAfterCancel l = true := by
  have := nrac_append_reads l [] h rfl
  simpa using this

/-- A refund-free list trivially satisfies `noRefundAfterCancel`. -/
theorem nrac_of_no_refund (l : List Ev)
    (h : l.all (fun e => !isRefundCreate e) = true) :
    noRefundAfterCancel l = true := by
  induction l with
  | nil => rfl
  | cons e m ih =>
    simp only [List.all_cons, Bool.and_eq_true] at h
    simp only [noRefundAfterCancel]
    split
    · simpa [List.all_eq_true] using fun x hx =>
        (List.all_eq_true.mp h.2) x hx
    · exact ih h.2

/-- Appending refund-free events preserves `noRefundAfterCancel`. -/
theorem nrac_append_no_refund_right (l m : List Ev)
    (hl : noRefundAfterCancel l = true)
    (hm : m.all (fun e => !isRefundCreate e) = true) :
    noRefundAfterCancel (l ++ m) = true := by
  induction l with
  | nil => simpa using nrac_of_no_refund m hm
  | cons e k ih =>
    rw [List.cons_append]
    simp only [noRefundAfterCancel] at hl ⊢
    by_cases hw : isCancelWrite e = true
    · rw [if_pos hw] at hl ⊢
      show ((k ++ m).all fun x => !isRefundCreate x) = true
      rw [List.all_append]
      simp [hl, hm]
    · rw [if_neg hw] at hl ⊢
      exact ih hl

/-- The refund-attempt trace never has a refund creation after a cancellation
write: the refund, when made, strictly precedes the immediate cancel. -/
theorem nrac_refundAttempt (st : Stripe) (s : Subscription) :
    noRefundAfterCancel (refundAttempt st s).2 = true := by
  simp only [refundAttempt]
  split
  · simp [noRefundAfterCancel, isCancelWrite]
  · split
    · simp [noRefundAfterCancel, isCancelWrite]
    · split
      · split
        · simp [noRefundAfterCancel, isCancelWrite, isRefundCreate]
        · split
          · simp [noRefundAfterCancel, isCancelWrite, isRefundCreate]
          · simp [noRefundAfterCancel, isCancelWrite, isRefundCreate]
      · simp [noRefundAfterCancel, isCancelWrite]

/-- The standard phase appends only a flag update and the notification, so it
preserves `noRefundAfterCancel` of its input trace. -/
theorem nrac_standardPhase (st : Stripe) (req : CancelReq) (s : Subscription)
    (tr0 : List Ev) (h0 : noRefundAfterCancel tr0 = true) :
    noRefundAfterCancel (standardPhase st req s tr0).2 = true := by
  simp only [standardPhase]
  split
  · exact nrac_append_no_refund_right _ _ h0 (by simp [isRefundCreate])
  · exact nrac_append_no_refund_right _ _ h0 (by simp [isRefundCreate])

/-- The post-lookup body of the cancel handler never creates a refund after a
cancellation write, whatever the provider answers. -/
theorem nrac_cancelWithSub (st : Stripe) (req : CancelReq) (nowMs : Int)
    (s : Subscription) (tr0 : List Ev) (h0r : tr0.all isReadEv = true) :
    noRefundAfterCancel (cancelWithSub st req nowMs s tr0).2 = true := by
  have h0 : noRefundAfterCancel tr0 = true := nrac_of_reads tr0 h0r
  simp only [cancelWithSub]
  split
  · split
    · rcases hra : refundAttempt st s with ⟨r, tr2⟩
      have h2 : noRefundAfterCancel tr2 = true := by
        have h3 := nrac_refundAttempt st s
        rw [hra] at h3
        exact h3
      have h02 : noRefundAfterCancel (tr0 ++ tr2) = true :=
        nrac_append_reads tr0 tr2 h0r h2
      cases r with
      | some resp => exact h02
      | none => exact nrac_standardPhase st req s _ h02
    · exact nrac_standardPhase st req s _ h0
  · exact nrac_standardPhase st req s _ h0

/-- No refund is created after a cancellation write by the cancel-subscription
handler. -/
theorem nrac_cancelHandler (st : Stripe) (req : CancelReq) (nowMs : Int) :
    noRefundAfterCancel (cancelHandler st req nowMs).2 = true := by
  have hreads := locateSub_trace_reads st req.subscriptionId req.email
  simp only [cancelHandler]
  split
  · rfl
  · split
    all_goals rename_i heq
    · rw [heq] at hreads
      exact nrac_of_reads _ hreads
    · rw [heq] at hreads
      exact nrac_of_reads _ hreads
    · rw [heq] at hreads
      exact nrac_of_reads _ hreads
    · rw [heq] at hreads
      exact nrac_cancelWithSub st req nowMs _ _ hreads

/-- No refund is created after a cancellation write by the process-refund
handler. -/
theorem nrac_processRefundHandler (st : Stripe) (req : RefundReq)
    (nowMs : Int) :
    noRefundAfterCancel (processRefundHandler st req nowMs).2 = true := by
  have hreads := locateSub_trace_reads st req.subscriptionId req.email
  simp only [processRefundHandler]
  split
  · rfl
  · split
    all_goals rename_i heq
    · rw [heq] at hreads
      exact nrac_of_reads _ hreads
    · rw [heq] at hreads
      exact nrac_of_reads _ hreads
    · rw [heq] at hreads
      exact nrac_of_reads _ hreads
    · rw [heq] at hreads
      have h0 : noRefundAfterCancel _ = true := nrac_of_reads _ hreads
      split
      · exact h0
      · split
        · exact nrac_append_no_refund_right _ _ h0 (by simp [isRefundCreate])
        · split
          · exact nrac_append_no_refund_right _ _ h0 (by simp [isRefundCreate])
          · split
            · split
              · exact nrac_append_no_refund_right _ _
                  (nrac_append_no_refund_right _ _ h0 (by simp [isRefundCreate]))
                  (by simp [isRefundCreate])
              · exact nrac_append_no_refund_right _ _
                  (nrac_append_no_refund_right _ _ h0 (by simp [isRefundCreate]))
                  (by simp [isRefundCreate])
            · split
              · split
                · apply nrac_append_reads
                  · rw [List.all_append]
                    simp only [Bool.and_eq_true]
                    exact ⟨by simpa using hreads,
                      by simp [isReadEv, isCancelWrite, isRefundCreate]⟩
                  · simp [noRefundAfterCancel, isCancelWrite]
                · split
                  · apply nrac_append_reads
                    · rw [List.all_append]
                      simp only [Bool.and_eq_true]
                      exact ⟨by simpa using hreads,
                        by simp [isReadEv, isCancelWrite, isRefundCreate]⟩
                    · simp [noRefundAfterCancel, isCancelWrite, isRefundCreate]
                  · apply nrac_append_reads
                    · rw [List.all_append]
                      simp only [Bool.and_eq_true]
                      exact ⟨by simpa using hreads,
                        by simp [isReadEv, isCancelWrite, isRefundCreate]⟩
                    · simp [noRefundAfterCancel, isCancelWrite, isRefundCreate]
              · exact nrac_append_no_refund_right _ _ h0
                  (by simp [isRefundCreate])

/-- C7.  In every execution of the cancel-subscription handler and of the
process-refund handler, no refund creation ever occurs after a cancellation
write: whenever a refund is issued and the subscription cancelled, the refund
strictly precedes the cancellation write to the provider. -/
theorem refund_precedes_cancellation_write (st : Stripe) (req : CancelReq)
    (nowMs : Int) (st2 : Stripe) (req2 : RefundReq) (now2 : Int) :
    noRefundAfterCancel (cancelHandler st req nowMs).2 = true
    ∧ noRefundAfterCancel (processRefundHandler st2 req2 now2).2 = true :=
  ⟨nrac_cancelHandler st req nowMs, nrac_processRefundHandler st2 req2 now2⟩

/-- C3 as claimed (the proposition refuted below): every in-window
`autoRefund` cancel request on a trialing subscription cancels it immediately
— the trace contains the immediate cancel and its only cancellation write is
that immediate cancel — and never creates a refund. -/
def ClaimC3 : Prop :=
  ∀ (st : Stripe) (req : CancelReq) (nowMs : Int) (s : Subscription)
    (tr0 : List Ev),
    req.autoRefund = true →
    req.action ≠ some "reactivate" →
    (jsTruthy req.subscriptionId = true ∨ jsTruthy req.email = true) →
    locateSub st req.subscriptionId req.email = (.ok s, tr0) →
    s.status = "trialing" →
    daysSincePurchase nowMs s.created ≤ 7 →
    (cancelHandler st req nowMs).2.contains (Ev.cancelNow s.id) = true
    ∧ ((cancelHandler st req nowMs).2.filter isRefundCreate) = []
    ∧ ((cancelHandler st req nowMs).2.filter isCancelWrite)
        = [Ev.cancelNow s.id]

/-- C3 counterexample.  `subTrial` (trialing, created at epoch 0, no paid
invoice) requested one day after creation with `autoRefund = true`: the
cancel-subscription handler never consults the trialing status, finds no paid
invoice, and performs the standard period-end cancellation — no immediate
cancel appears in the trace, so the claim is false as stated. -/
theorem trial_autorefund_claim_false : ¬ ClaimC3 := by
  intro h
  have h1 := (h stTrial
    { subscriptionId := some "sub_tr", email := none, action := none
      autoRefund := true, reason := none } 86400000 subTrial
    [.retrieveSub "sub_tr"] rfl (by decide) (Or.inl (by decide)) (by rfl) rfl
    (by decide)).1
  exact absurd h1 (by decide)

/-- C3 as amended.  The cancel-subscription handler does not special-case
trialing subscriptions: an in-window `autoRefund` request on a trialing
subscription with no paid invoice (a never-charged trial) creates no refund,
but the cancellation is the standard period-end one — the only cancellation
write is `update {cancel_at_period_end: true}`, no immediate cancel is issued,
and the response is the 200 period-end message.  The immediate no-charge trial
cancellation is implemented only by the standalone process-refund endpoint. -/
theorem trial_autorefund_cancels_at_period_end (st : Stripe) (req : CancelReq)
    (nowMs : Int) (s : Subscription) (tr0 : List Ev) (s2 : Subscription)
    (hguard : jsTruthy req.subscriptionId = true ∨ jsTruthy req.email = true)
    (hauto : req.autoRefund = true)
    (hact : req.action ≠ some "reactivate")
    (hloc : locateSub st req.subscriptionId req.email = (.ok s, tr0))
    (hstat : s.status = "trialing")
    (hwin : daysSincePurchase nowMs s.created ≤ 7)
    (hpaid : st.paidInvoicesOf s.id = .ok [])
    (hupd : st.update s.id true = .ok s2) :
    cancelHandler st req nowMs
      = (.completed
          "Subscription will be cancelled at the end of the current period"
          s2.id s2.cancel_at_period_end s2.current_period_end,
         (tr0 ++ [.listPaidInvoices s.id]) ++ [.update s.id true, .sendEmail])
    ∧ ((cancelHandler st req nowMs).2.filter isRefundCreate) = []
    ∧ ((cancelHandler st req nowMs).2.filter isCancelWrite)
        = [Ev.update s.id true] := by
  have helig : cancelRefundEligible nowMs s.created = true := by
    simp [cancelRefundEligible, hwin]
  have hra : refundAttempt st s = (none, [.listPaidInvoices s.id]) := by
    simp [refundAttempt, hpaid]
  have hres : cancelHandler st req nowMs
      = (.completed
          "Subscription will be cancelled at the end of the current period"
          s2.id s2.cancel_at_period_end s2.current_period_end,
         (tr0 ++ [.listPaidInvoices s.id]) ++ [.update s.id true, .sendEmail]) := by
    rw [cancelHandler_located st req nowMs s tr0 hguard hloc]
    simp only [cancelWithSub, helig, if_true]
    rw [if_pos ⟨hauto, hact⟩, hra]
    exact standardPhase_cancel st req s _ s2 hact hupd
  have hreads := locateSub_trace_reads st req.subscriptionId req.email
  rw [hloc] at hreads
  have hno : ∀ a ∈ tr0, isCancelWrite a = false ∧ isRefundCreate a = false := by
    intro a ha
    have := (List.all_eq_true.mp hreads) a ha
    simpa [isReadEv, Bool.and_eq_true, Bool.not_eq_true'] using this
  refine ⟨hres, ?_, ?_⟩
  · rw [hres]
    have h1 : tr0.filter isRefundCreate = [] :=
      List.filter_eq_nil_iff.mpr (fun a ha => by simp [(hno a ha).2])
    simp [List.filter_append, h1, isRefundCreate]
  · rw [hres]
    have h1 : tr0.filter isCancelWrite = [] :=
      List.filter_eq_nil_iff.mpr (fun a ha => by simp [(hno a ha).1])
    simp [List.filter_append, h1, isCancelWrite]

/-- Witness for the amended C3: `subTrial` one day in, `autoRefund = true`,
yields the period-end cancellation with no refund and no immediate cancel. -/
theorem trial_autorefund_cancels_at_period_end_witness :
    cancelHandler stTrial
        { subscriptionId := some "sub_tr", email := none, action := none
          autoRefund := true, reason := none } 86400000
      = (.completed
          "Subscription will be cancelled at the end of the current period"
          "sub_tr" true 2000000,
         ([Ev.retrieveSub "sub_tr"] ++ [.listPaidInvoices "sub_tr"])
           ++ [.update "sub_tr" true, .sendEmail])
    ∧ (((cancelHandler stTrial
        { subscriptionId := some "sub_tr", email := none, action := none
          autoRefund := true, reason := none } 86400000).2).filter
        isRefundCreate) = []
    ∧ (((cancelHandler stTrial
        { subscriptionId := some "sub_tr", email := none, action := none
          autoRefund := true, reason := none } 86400000).2).filter
        isCancelWrite) = [Ev.update "sub_tr" true] :=
  trial_autorefund_cancels_at_period_end stTrial
    { subscriptionId := some "sub_tr", email := none, action := none
      autoRefund := true, reason := none } 86400000 subTrial
    [.retrieveSub "sub_tr"] { subTrial with cancel_at_period_end := true }
    (Or.inl (by decide)) rfl (by decide) (by rfl) rfl (by decide) rfl rfl

end Nimbus
